import Mathlib

/-!
Verification of the kanjilab game-session server against its specification.

The development shallowly embeds the server's state and message handlers:

* wire data types mirror `src/data_types.rs`;
* `verify_signature` mirrors `src/tools.rs` (base64 decoding of the standard
  alphabet with required padding models the external base64 crate's
  `BASE64_STANDARD` engine; the ed25519 key validation and signature check are
  external collaborators and appear as function parameters);
* the per-connection session handler mirrors `src/session_client_actor.rs`;
* the room state machine and the pending-request tracker mirror
  `src/room_actor.rs` and `src/pending_tracker.rs`.

Rust `HashMap`s are embedded as association lists; their iteration order is
implementation-defined, so wherever the code observes that order (`iter().next()`,
insertion position) the embedding keeps the list order abstract or takes it as a
parameter.  UUIDs and actor ids are embedded as naturals; fresh UUIDs
(`Uuid::new_v4()`) and clock reads (`Instant::now()`) are handler parameters.
A Rust panic is embedded as `none` / the `RustResult.panics` constructor.
-/

namespace Kanjilab

/-- UUIDs (`uuid::Uuid`) are opaque identifiers; embedded as naturals. -/
abbrev Uuid := Nat

/-- Actor ids (`kameo::actor::ActorID`); embedded as naturals. -/
abbrev ActorID := Nat

-- #region association-list model of HashMap

/-- Lookup in a `HashMap<Uuid, β>` embedded as an association list. -/
def mapLookup {β : Type} : List (Uuid × β) → Uuid → Option β
  | [], _ => none
  | p :: m, k => if p.1 == k then some p.2 else mapLookup m k

/-- `HashMap::remove` (key erased; on absent key the map is unchanged). -/
def mapRemove {β : Type} : List (Uuid × β) → Uuid → List (Uuid × β)
  | [], _ => []
  | p :: m, k => if p.1 == k then mapRemove m k else p :: mapRemove m k

/-- `HashMap::insert` (replaces any existing binding for the key). -/
def mapInsert {β : Type} (m : List (Uuid × β)) (k : Uuid) (v : β) : List (Uuid × β) :=
  (k, v) :: mapRemove m k

theorem mapLookup_remove {β : Type} (m : List (Uuid × β)) (k : Uuid) :
    mapLookup (mapRemove m k) k = none := by
  induction m with
  | nil => rfl
  | cons p m ih =>
    by_cases h : p.1 == k
    · simp only [mapRemove, if_pos h]
      exact ih
    · simp only [mapRemove, if_neg h, mapLookup, if_neg h]
      exact ih

theorem mapRemove_eq_self {β : Type} (m : List (Uuid × β)) (k : Uuid)
    (h : mapLookup m k = none) : mapRemove m k = m := by
  induction m with
  | nil => rfl
  | cons p m ih =>
    by_cases hp : p.1 == k
    · simp only [mapLookup, if_pos hp] at h
      exact Option.noConfusion h
    · simp only [mapLookup, if_neg hp] at h
      simp only [mapRemove, if_neg hp, ih h]

-- #endregion

-- #region wire data types (src/data_types.rs)

/-- The generic envelope `TransportEnvelope<T>` of `src/data_types.rs`. -/
structure TransportEnvelope (T : Type) where
  correlation_id : Uuid
  payload : T
deriving Repr

/-- `GameSettings` of `src/data_types.rs`. -/
structure GameSettings where
  min_frequency : Nat
  max_frequency : Nat
  using_max_frequency : Bool
  round_duration : Nat
  rounds_count : Nat
  word_part : Option String
  word_part_reading : Option String
  fonts_count : Nat
  first_font_name : Option String
deriving DecidableEq, Repr

/-- `GameSettings::default()` (derived `Default`: zeroes, `false`, `None`). -/
def GameSettings.default : GameSettings :=
  ⟨0, 0, false, 0, 0, none, none, 0, none⟩

/-- `WordPartExample` of `src/data_types.rs`; `frequency` is an `Option<f64>`. -/
structure WordPartExample where
  word : String
  frequency : Option Float
  reading : String

/-- `WordPartInfo` of `src/data_types.rs`. -/
structure WordPartInfo where
  word_part : String
  word_part_reading : String
  examples : List WordPartExample

/-- `ReadingWithParts` of `src/data_types.rs`. -/
structure ReadingWithParts where
  reading : String
  parts : List WordPartInfo

/-- `WordInfo` of `src/data_types.rs`. -/
structure WordInfo where
  word : String
  meanings : List (List (List String))
  readings : List ReadingWithParts

/-- `WordInfo::default()`. -/
def WordInfo.default : WordInfo := ⟨"", [], []⟩

/-- `QuestionInfo` of `src/data_types.rs`. -/
structure QuestionInfo where
  word_info : WordInfo
  font_name : String

/-- `QuestionInfo::default()`. -/
def QuestionInfo.default : QuestionInfo := ⟨WordInfo.default, ""⟩

/-- `AnswerInfo` of `src/data_types.rs` (`answer_time` in milliseconds). -/
structure AnswerInfo where
  id : String
  answer : String
  is_correct : Bool
  answer_time : Nat
deriving DecidableEq, Repr

/-- `ClientInfo` of `src/data_types.rs`. -/
structure ClientInfo where
  id : String
  key : String
  name : String
  is_admin : Bool
deriving DecidableEq, Repr

/-- Payload of `IN_REQ_sendPublicKey`. -/
structure InReqSendPublicKey where
  key : String
deriving DecidableEq, Repr

/-- Payload of `IN_REQ_verifysignature`. -/
structure InReqVerifySignature where
  signature : String
deriving DecidableEq, Repr

/-- Payload of `IN_REQ_registerClient`. -/
structure InReqRegisterClient where
  name : String
deriving DecidableEq, Repr

/-- Payload of `IN_REQ_sendChat`. -/
structure InReqSendChat where
  message : String
deriving DecidableEq, Repr

/-- Payload of `IN_REQ_makeAdmin`. -/
structure InReqMakeAdmin where
  admin_password : String
  client_id : String
deriving DecidableEq, Repr

/-- Payload of `IN_REQ_clientList` (empty). -/
structure InReqClientList where
deriving DecidableEq, Repr

/-- Payload of `IN_REQ_startGame`. -/
structure InReqStartGame where
  game_settings : GameSettings
deriving DecidableEq, Repr

/-- Payload of `IN_REQ_stopGame` (empty). -/
structure InReqStopGame where
deriving DecidableEq, Repr

/-- Payload of `IN_REQ_sendAnswer`. -/
structure InReqSendAnswer where
  answer : String
deriving DecidableEq, Repr

/-- Payload of `IN_REQ_sendGameSettings`. -/
structure InReqSendGameSettings where
  game_settings : GameSettings
deriving DecidableEq, Repr

/-- Payload of `OUT_RESP_clientRegistered`. -/
structure OutRespClientRegistered where
  id : String
  game_settings : GameSettings
deriving DecidableEq, Repr

/-- Payload of `OUT_RESP_status`. -/
structure OutRespStatus where
  status : String
deriving DecidableEq, Repr

/-- Payload of `OUT_RESP_clientList`. -/
structure OutRespClientList where
  clients : List ClientInfo
deriving DecidableEq, Repr

/-- Payload of `OUT_RESP_signMessage`. -/
structure OutRespSignMessage where
  message : String
deriving DecidableEq, Repr

/-- Payload of `OUT_REQ_question` (empty). -/
structure OutReqQuestion where
deriving DecidableEq, Repr

/-- Payload of `IN_RESP_question`. -/
structure InRespQuestion where
  question : QuestionInfo
  question_svg : String

/-- Payload of `OUT_NOTIF_clientRegistered`. -/
structure OutNotifClientRegistered where
  client : ClientInfo
deriving DecidableEq, Repr

/-- Payload of `OUT_NOTIF_clientDisconnected`. -/
structure OutNotifClientDisconnected where
  id : String
deriving DecidableEq, Repr

/-- Payload of `OUT_NOTIF_chatSent`. -/
structure OutNotifChatSent where
  id : String
  message : String
deriving DecidableEq, Repr

/-- Payload of `OUT_NOTIF_adminMade`. -/
structure OutNotifAdminMade where
  id : String
deriving DecidableEq, Repr

/-- Payload of `OUT_NOTIF_gameStarted`. -/
structure OutNotifGameStarted where
  game_settings : GameSettings
deriving DecidableEq, Repr

/-- Payload of `OUT_NOTIF_gameStopped`. -/
structure OutNotifGameStopped where
  question : QuestionInfo
  answers : List AnswerInfo

/-- Payload of `OUT_NOTIF_question`. -/
structure OutNotifQuestion where
  question_svg : String
deriving DecidableEq, Repr

/-- Payload of `OUT_NOTIF_clientAnswered`. -/
structure OutNotifClientAnswered where
  id : String
deriving DecidableEq, Repr

/-- Payload of `OUT_NOTIF_roundEnded`. -/
structure OutNotifRoundEnded where
  question : QuestionInfo
  answers : List AnswerInfo

/-- Payload of `OUT_NOTIF_gameSettingsChanged`. -/
structure OutNotifGameSettingsChanged where
  game_settings : GameSettings
deriving DecidableEq, Repr

/-- The closed tag set `TransportMsg` of `src/data_types.rs`. -/
inductive TransportMsg where
  | InReqSendPublicKey (env : TransportEnvelope InReqSendPublicKey)
  | InReqVerifySignature (env : TransportEnvelope InReqVerifySignature)
  | InReqRegisterClient (env : TransportEnvelope InReqRegisterClient)
  | InReqSendChat (env : TransportEnvelope InReqSendChat)
  | InReqMakeAdmin (env : TransportEnvelope InReqMakeAdmin)
  | InReqClientList (env : TransportEnvelope InReqClientList)
  | InReqStartGame (env : TransportEnvelope InReqStartGame)
  | InReqStopGame (env : TransportEnvelope InReqStopGame)
  | InReqSendAnswer (env : TransportEnvelope InReqSendAnswer)
  | InReqSendGameSettings (env : TransportEnvelope InReqSendGameSettings)
  | OutRespClientRegistered (env : TransportEnvelope OutRespClientRegistered)
  | OutRespStatus (env : TransportEnvelope OutRespStatus)
  | OutRespClientList (env : TransportEnvelope OutRespClientList)
  | OutRespSignMessage (env : TransportEnvelope OutRespSignMessage)
  | OutReqQuestion (env : TransportEnvelope OutReqQuestion)
  | InRespQuestion (env : TransportEnvelope InRespQuestion)
  | OutNotifClientRegistered (env : TransportEnvelope OutNotifClientRegistered)
  | OutNotifClientDisconnected (env : TransportEnvelope OutNotifClientDisconnected)
  | OutNotifChatSent (env : TransportEnvelope OutNotifChatSent)
  | OutNotifAdminMade (env : TransportEnvelope OutNotifAdminMade)
  | OutNotifGameStarted (env : TransportEnvelope OutNotifGameStarted)
  | OutNotifGameStopped (env : TransportEnvelope OutNotifGameStopped)
  | OutNotifQuestion (env : TransportEnvelope OutNotifQuestion)
  | OutNotifClientAnswered (env : TransportEnvelope OutNotifClientAnswered)
  | OutNotifRoundEnded (env : TransportEnvelope OutNotifRoundEnded)
  | OutNotifGameSettingsChanged (env : TransportEnvelope OutNotifGameSettingsChanged)

-- #endregion

-- #region tools.rs: verify_signature

/-- Outcome of a Rust computation that may panic (`panics`), return
`Err` (`err`) or return `Ok` (`ok`). -/
inductive RustResult (ε α : Type) where
  | panics
  | err (e : ε)
  | ok (a : α)
deriving DecidableEq, Repr

/-- Value of one character of the standard base64 alphabet
(`A`-`Z`, `a`-`z`, `0`-`9`, `+`, `/`). -/
def b64Val (c : Char) : Option Nat :=
  if 'A' ≤ c ∧ c ≤ 'Z' then some (c.toNat - 65)
  else if 'a' ≤ c ∧ c ≤ 'z' then some (c.toNat - 97 + 26)
  else if '0' ≤ c ∧ c ≤ '9' then some (c.toNat - 48 + 52)
  else if c = '+' then some 62
  else if c = '/' then some 63
  else none

/-- Base64 decoding over the character list: standard alphabet, canonical
padding required, nonzero trailing bits rejected.  This models the behaviour
of the external base64 crate's `BASE64_STANDARD` engine used by
`src/tools.rs` (exact error strings are immaterial to the server, which only
logs them). -/
def base64DecodeChars : List Char → Except String (List Nat)
  | [] => Except.ok []
  | a :: b :: c :: d :: rest =>
    match b64Val a, b64Val b with
    | some va, some vb =>
      if c = '=' then
        if d = '=' ∧ rest = [] then
          if vb % 16 = 0 then Except.ok [va * 4 + vb / 16]
          else Except.error "Invalid trailing bits"
        else Except.error "Invalid padding"
      else
        match b64Val c with
        | some vc =>
          if d = '=' then
            if rest = [] then
              if vc % 4 = 0 then Except.ok [va * 4 + vb / 16, vb % 16 * 16 + vc / 4]
              else Except.error "Invalid trailing bits"
            else Except.error "Invalid padding"
          else
            match b64Val d with
            | some vd =>
              match base64DecodeChars rest with
              | Except.ok tail =>
                Except.ok ((va * 4 + vb / 16) :: (vb % 16 * 16 + vc / 4) ::
                  (vc % 4 * 64 + vd) :: tail)
              | Except.error e => Except.error e
            | none => Except.error "Invalid symbol"
        | none => Except.error "Invalid symbol"
    | _, _ => Except.error "Invalid symbol"
  | _ => Except.error "Invalid input length"

/-- `BASE64_STANDARD.decode` on a string. -/
def base64Decode (s : String) : Except String (List Nat) :=
  base64DecodeChars s.data

/-- `verify_signature` of `src/tools.rs`.

The two external ed25519 operations are parameters: `keyFromBytes` models
`VerifyingKey::from_bytes` on a 32-byte array (it can reject an invalid
point), and `edVerify` models `VerifyingKey::verify` (key bytes, message,
signature bytes).  The Rust code converts the decoded byte vectors with
`try_into().unwrap()`: when the decoded key is not exactly 32 bytes, or the
decoded signature is not exactly 64 bytes, `unwrap` panics — embedded here
as `RustResult.panics`. -/
def verify_signature (keyFromBytes : List Nat → Except String Unit)
    (edVerify : List Nat → String → List Nat → Bool)
    (message signature key : String) : RustResult String Bool :=
  match base64Decode key with
  | Except.error e => RustResult.err ("Invalid public key: " ++ e)
  | Except.ok public_key_bytes =>
    if public_key_bytes.length = 32 then
      match keyFromBytes public_key_bytes with
      | Except.error e => RustResult.err ("Invalid public key: " ++ e)
      | Except.ok _ =>
        match base64Decode signature with
        | Except.error e => RustResult.err ("Invalid signature: " ++ e)
        | Except.ok signature_bytes =>
          if signature_bytes.length = 64 then
            RustResult.ok (edVerify public_key_bytes message signature_bytes)
          else RustResult.panics
    else RustResult.panics

/-- A valid base64 string (canonical padding, zero trailing bits) that
decodes to 31 bytes — one short of an ed25519 public key. -/
def shortKeyB64 : String := "AAAAAAAAAAAAAAAAAAAAAAAAAAAAAAAAAAAAAAAAAA=="

theorem shortKeyB64_decodes_to_31_bytes :
    base64Decode shortKeyB64 = Except.ok (List.replicate 31 0) := by rfl

-- #endregion

-- #region session actor (src/session_client_actor.rs)

/-- State of `SessionClientActor` (`src/session_client_actor.rs`).

`transport` is `true` when the transport recipient is set (`Option<Recipient>`
present); `game` / `room` are `true` when the corresponding weak actor
reference is present and upgradable (a set-but-dead weak reference behaves
exactly like an absent one in every handler arm, so the two are merged). -/
structure SessionClientActor where
  transport : Bool
  pub_key : Option String
  sign_challenge : Option Uuid
  signature_verified : Bool
  game : Bool
  room : Bool
deriving DecidableEq, Repr

/-- `SessionClientActor::new`. -/
def SessionClientActor.new : SessionClientActor :=
  ⟨false, none, none, false, false, false⟩

/-- `SessionClientActor::current_challenge_str`. -/
def current_challenge_str (st : SessionClientActor) : Option String :=
  st.sign_challenge.map toString

/-- The `ToTransport` message type consumed by the transport actor. -/
inductive ToTransport where
  | transportMsg (msg : TransportMsg)
  | raw (text : String)

/-- `RegisterClientRequest` sent to the game actor. -/
structure RegisterClientRequest where
  session : ActorID
  name : String
  pub_key : String
  correlation_id : Uuid

/-- Messages the session forwards to the room actor (the room-scoped request
structs of `src/room_actor.rs`, with the requester's actor id in place of the
`ActorRef`). -/
inductive RoomTell where
  | clientList (requester : ActorID) (correlation_id : Uuid)
  | setGameSettings (requester : ActorID) (correlation_id : Uuid) (game_settings : GameSettings)
  | sendChat (requester : ActorID) (correlation_id : Uuid) (message : String)
  | startGame (requester : ActorID) (correlation_id : Uuid) (game_settings : GameSettings)
  | provideQuestion (requester : ActorID) (correlation_id : Uuid)
      (question : QuestionInfo) (question_svg : String)
  | sendAnswer (requester : ActorID) (correlation_id : Uuid) (answer : String)
  | stopGame (requester : ActorID) (correlation_id : Uuid)

/-- An observable effect of one session handler run: a message handed to
`self.send` (delivered to the transport when present) or a `tell` to the game
or room actor. -/
inductive SessionEffect where
  | send (m : ToTransport)
  | tellGame (req : RegisterClientRequest)
  | tellRoom (msg : RoomTell)

/-- `SessionClientActor::send`: hands the message to the transport recipient
when one is set, otherwise drops it. -/
def sendEff (st : SessionClientActor) (m : ToTransport) : List SessionEffect :=
  if st.transport then [SessionEffect.send m] else []

/-- `SessionClientActor::send_status`: an `OUT_RESP_status` reply echoing the
request's correlation id. -/
def send_status (st : SessionClientActor) (corr : Uuid) (status : String) :
    List SessionEffect :=
  sendEff st (ToTransport.transportMsg (TransportMsg.OutRespStatus ⟨corr, ⟨status⟩⟩))

/-- The `Message<TransportMsg>` handler of `SessionClientActor`
(`src/session_client_actor.rs`).

Parameters model the handler's environment: `selfId` is `ctx.actor_ref()`,
`fresh` the challenge produced by `Uuid::new_v4()`, and `vf` the call to
`verify_signature` (which, per `src/tools.rs`, can return `Ok`, `Err`, or
panic).  The result is `none` exactly when the handler panics. -/
def sessionHandle (selfId : ActorID) (fresh : Uuid)
    (vf : String → String → String → RustResult String Bool)
    (st : SessionClientActor) (msg : TransportMsg) :
    Option (SessionClientActor × List SessionEffect) :=
  match msg with
  | TransportMsg.InReqSendPublicKey env =>
    let pre := if st.signature_verified then
      send_status st env.correlation_id "signature already verified" else []
    let st' := { st with pub_key := some env.payload.key, sign_challenge := some fresh }
    some (st', pre ++ sendEff st' (ToTransport.transportMsg
      (TransportMsg.OutRespSignMessage ⟨env.correlation_id, ⟨toString fresh⟩⟩)))
  | TransportMsg.InReqVerifySignature env =>
    match current_challenge_str st with
    | none => some (st, send_status st env.correlation_id "no stored challenges")
    | some challenge =>
      match st.pub_key with
      | none => some (st, send_status st env.correlation_id "no public key")
      | some key =>
        match vf challenge env.payload.signature key with
        | RustResult.panics => none
        | RustResult.ok b =>
          let st' := { st with signature_verified := b }
          some (st', send_status st' env.correlation_id (if b then "success" else "error"))
        | RustResult.err _ =>
          let st' := { st with signature_verified := false }
          some (st', send_status st env.correlation_id "error" ++
            send_status st' env.correlation_id "error")
  | TransportMsg.InReqRegisterClient env =>
    if st.signature_verified then
      if st.game then
        match st.pub_key with
        | none => some (st, send_status st env.correlation_id "no public key")
        | some key =>
          some (st, [SessionEffect.tellGame
            ⟨selfId, env.payload.name, key, env.correlation_id⟩])
      else some (st, send_status st env.correlation_id "error")
    else some (st, send_status st env.correlation_id "error")
  | TransportMsg.InReqClientList env =>
    if st.room then
      some (st, [SessionEffect.tellRoom (RoomTell.clientList selfId env.correlation_id)])
    else some (st, send_status st env.correlation_id "no room")
  | TransportMsg.InReqSendGameSettings env =>
    if st.room then
      some (st, [SessionEffect.tellRoom
        (RoomTell.setGameSettings selfId env.correlation_id env.payload.game_settings)])
    else some (st, send_status st env.correlation_id "no room")
  | TransportMsg.InReqSendChat env =>
    if st.room then
      some (st, [SessionEffect.tellRoom
        (RoomTell.sendChat selfId env.correlation_id env.payload.message)])
    else some (st, send_status st env.correlation_id "no room")
  | TransportMsg.InReqStartGame env =>
    if st.room then
      some (st, [SessionEffect.tellRoom
        (RoomTell.startGame selfId env.correlation_id env.payload.game_settings)])
    else some (st, send_status st env.correlation_id "no room")
  | TransportMsg.InRespQuestion env =>
    if st.room then
      some (st, [SessionEffect.tellRoom (RoomTell.provideQuestion selfId
        env.correlation_id env.payload.question env.payload.question_svg)])
    else some (st, [])
  | TransportMsg.InReqSendAnswer env =>
    if st.room then
      some (st, [SessionEffect.tellRoom
        (RoomTell.sendAnswer selfId env.correlation_id env.payload.answer)])
    else some (st, send_status st env.correlation_id "no room")
  | TransportMsg.InReqStopGame env =>
    if st.room then
      some (st, [SessionEffect.tellRoom (RoomTell.stopGame selfId env.correlation_id)])
    else some (st, send_status st env.correlation_id "no room")
  | _ => some (st, [])

-- #endregion

-- #region pending tracker (src/pending_tracker.rs) and room actor (src/room_actor.rs)

/-- The `RoomPending` kind of `src/room_actor.rs`. -/
inductive RoomPending where
  | question (uuid : Uuid)
  | round
deriving DecidableEq, Repr

/-- `PendingMeta` of `src/pending_tracker.rs`, specialised to the room's kind
(`sent` is the `Instant` of `add`, `t_out` the timeout duration, both in
seconds on an abstract clock). -/
structure PendingMeta where
  kind : RoomPending
  sent : Nat
  t_out : Nat
deriving DecidableEq, Repr

/-- `PendingTracker::add` (`src/pending_tracker.rs`).  The freshly generated
`Uuid::new_v4()` is the `id` parameter; it doubles as the returned
`Ticket` (a `Ticket<K>` is a `Uuid` plus a phantom kind). The timer task
spawned alongside is observed only through a later `Timeout(id)` delivery. -/
def trackerAdd (m : List (Uuid × PendingMeta)) (id : Uuid) (kind : RoomPending)
    (now dur : Nat) : List (Uuid × PendingMeta) :=
  mapInsert m id ⟨kind, now, dur⟩

/-- `PendingTracker::take`: removes and returns the entry. -/
def trackerTake (m : List (Uuid × PendingMeta)) (id : Uuid) :
    Option PendingMeta × List (Uuid × PendingMeta) :=
  (mapLookup m id, mapRemove m id)

/-- `PendingTracker::cancel`: removes the entry, reporting whether it was
present. -/
def trackerCancel (m : List (Uuid × PendingMeta)) (id : Uuid) :
    Bool × List (Uuid × PendingMeta) :=
  ((mapLookup m id).isSome, mapRemove m id)

/-- `RoomClientInfo` of `src/room_actor.rs`. -/
structure RoomClientInfo where
  is_admin : Bool
deriving DecidableEq, Repr

/-- `RoomClient` of `src/room_actor.rs` (the session `ActorRef` embedded as
its actor id). -/
structure RoomClient where
  session : ActorID
  room_info : RoomClientInfo
deriving DecidableEq, Repr

/-- State of `RoomActor` (`src/room_actor.rs`).  The `clients` HashMap is an
association list whose order stands for the map's implementation-defined
iteration order.  The weak `game` reference is external (it only serves to
fetch display info) and is modelled at the call sites. -/
structure RoomActor where
  name : String
  clients : List (Uuid × RoomClient)
  game_settings : GameSettings
  current_question : Option QuestionInfo
  current_answers : List AnswerInfo
  is_game_running : Bool
  round_ticket : Option Uuid
  pending : List (Uuid × PendingMeta)
  round_start : Option Nat
  rounds_played : Nat

/-- `RoomActor::on_start`. -/
def RoomActor.on_start (name : String) : RoomActor :=
  ⟨name, [], GameSettings.default, none, [], false, none, [], none, 0⟩

/-- Observable effects of a room handler run.  Broadcast notifications are
recorded by payload; their wire envelopes carry fresh `Uuid::new_v4()`
correlation ids, which the specification already treats as nondeterministic. -/
inductive RoomEvent where
  | replyStatus (session : ActorID) (correlation_id : Uuid) (status : String)
  | clientRegistered (client : ClientInfo)
  | clientDisconnected (id : Uuid)
  | adminMade (id : Uuid)
  | gameSettingsChanged (game_settings : GameSettings)
  | gameStarted (game_settings : GameSettings)
  | gameStopped (question : QuestionInfo) (answers : List AnswerInfo)
  | questionBroadcast (question_svg : String)
  | clientAnswered (id : Uuid)
  | chatSent (id : Uuid) (message : String)
  | roundEnded (question : QuestionInfo) (answers : List AnswerInfo)
  | outReqQuestion (session : ActorID) (correlation_id : Uuid)

/-- `RoomActor::find_client`. -/
def find_client (st : RoomActor) (session_id : ActorID) :
    Option (Uuid × RoomClientInfo × ActorID) :=
  (st.clients.find? (fun p => p.2.session == session_id)).map
    (fun p => (p.1, p.2.room_info, p.2.session))

/-- `RoomActor::push_missing_answers`: append a blank, incorrect answer with
`answer_time = round_duration * 1000` for every member uuid missing from
`current_answers`, in the member map's iteration order. -/
def push_missing_answers (st : RoomActor) : List AnswerInfo :=
  let answered := st.current_answers.map (fun a => a.id)
  let max_time := st.game_settings.round_duration * 1000
  st.current_answers ++
    ((st.clients.map Prod.fst).filter
      (fun u => ! answered.contains (toString u))).map
      (fun u => ⟨toString u, "", false, max_time⟩)

/-- `RoomActor::request_question`: find the current admin (first admin in
iteration order); if none remains, stop the game and log; otherwise register a
5-second `Question` pending entry under the fresh correlation id and send
`OUT_REQ_question` to the admin's session. -/
def request_question (fresh : Uuid) (now : Nat) (st : RoomActor) :
    RoomActor × List RoomEvent :=
  match st.clients.find? (fun p => p.2.room_info.is_admin) with
  | none => ({ st with is_game_running := false }, [])
  | some (admin_uuid, admin) =>
    ({ st with pending := trackerAdd st.pending fresh (RoomPending.question admin_uuid) now 5 },
     [RoomEvent.outReqQuestion admin.session fresh])

/-- `RoomActor::finish_round` (`src/room_actor.rs`): guarded by
`is_game_running`; fill missing answers, broadcast `OUT_NOTIF_roundEnded`,
clear the round fields, bump `rounds_played`, and either stop the game
(broadcasting `OUT_NOTIF_gameStopped`) or request the next question. -/
def finish_round (fresh : Uuid) (now : Nat) (st : RoomActor) :
    RoomActor × List RoomEvent :=
  if st.is_game_running then
    let answers := push_missing_answers st
    let ev := RoomEvent.roundEnded (st.current_question.getD QuestionInfo.default) answers
    let st1 := { st with
      current_question := none, current_answers := [],
      round_ticket := none, round_start := none,
      rounds_played := st.rounds_played + 1 }
    if st1.rounds_played ≥ st1.game_settings.rounds_count then
      ({ st1 with is_game_running := false },
       [ev, RoomEvent.gameStopped QuestionInfo.default []])
    else
      let (st2, evs) := request_question fresh now st1
      (st2, ev :: evs)
  else (st, [])

/-- `RoomActor::on_link_died` (`src/room_actor.rs`): remove the member whose
session died, broadcast the disconnect, then look at the *first* entry of the
member map's iteration order and promote it to admin if it is not one. -/
def on_link_died (id : ActorID) (st : RoomActor) : RoomActor × List RoomEvent :=
  match st.clients.find? (fun p => p.2.session == id) with
  | none => (st, [])
  | some (uuid, _) =>
    let clients1 := st.clients.filter (fun p => p.1 != uuid)
    let ev := RoomEvent.clientDisconnected uuid
    match clients1.head? with
    | none => ({ st with clients := clients1 }, [ev])
    | some (new_admin_uuid, c) =>
      if c.room_info.is_admin then ({ st with clients := clients1 }, [ev])
      else
        ({ st with clients := clients1.map (fun p =>
            if p.1 == new_admin_uuid then
              (p.1, { p.2 with room_info := { p.2.room_info with is_admin := true } })
            else p) },
         [ev, RoomEvent.adminMade new_admin_uuid])

/-- Insertion at a given position, modelling where a `HashMap::insert` lands
in the map's implementation-defined iteration order. -/
def listInsertAt {α : Type} : Nat → α → List α → List α
  | _, a, [] => [a]
  | 0, a, l => a :: l
  | n + 1, a, x :: l => x :: listInsertAt n a l

/-- `GameClientInfo` held by the game actor's registry (`src/game_actor.rs`). -/
structure GameClientInfo where
  id : Uuid
  key : String
  name : String
deriving DecidableEq, Repr

/-- The `Message<AddClient>` handler of `RoomActor` (`src/room_actor.rs`):
`is_admin = members.isEmpty()`, insert the member (`pos` models the new
entry's place in the iteration order), then fetch `{key, name}` from the game
actor (`info`; `none` models a dead game reference, a failed ask, or an
unknown id — the handler returns early but the insertion stays), broadcast
`OUT_NOTIF_clientRegistered`, and either `OUT_NOTIF_adminMade` (first member)
or `OUT_NOTIF_gameSettingsChanged` (everyone else). -/
def addClient (pos : Nat) (uuid : Uuid) (session : ActorID)
    (info : Option GameClientInfo) (st : RoomActor) : RoomActor × List RoomEvent :=
  let is_admin := st.clients.isEmpty
  let st' := { st with clients := listInsertAt pos (uuid, ⟨session, ⟨is_admin⟩⟩) st.clients }
  match info with
  | none => (st', [])
  | some g =>
    let ci : ClientInfo := ⟨toString g.id, g.key, g.name, is_admin⟩
    if is_admin then (st', [RoomEvent.clientRegistered ci, RoomEvent.adminMade uuid])
    else (st', [RoomEvent.clientRegistered ci,
      RoomEvent.gameSettingsChanged st'.game_settings])

/-- The `Message<StartGameRequest>` handler of `RoomActor`
(`src/room_actor.rs`). -/
def handleStartGame (fresh : Uuid) (now : Nat) (requester : ActorID) (corr : Uuid)
    (gs : GameSettings) (st : RoomActor) : RoomActor × List RoomEvent :=
  match find_client st requester with
  | none => (st, [])
  | some (_, room_info, _) =>
    if room_info.is_admin then
      if st.is_game_running then
        (st, [RoomEvent.replyStatus requester corr "already running"])
      else
        let st1 := { st with
          current_question := none, current_answers := [],
          round_ticket := none, game_settings := gs,
          is_game_running := true, rounds_played := 0 }
        let (st2, evs) := request_question fresh now st1
        (st2, RoomEvent.replyStatus requester corr "success" ::
          RoomEvent.gameStarted gs :: evs)
    else (st, [RoomEvent.replyStatus requester corr "not admin"])

/-- The `Message<ProvideQuestionResponse>` handler of `RoomActor`
(`src/room_actor.rs`).  `pending.take` removes the entry before the match;
when the entry is a `Question{uuid}`, the match guard indexes
`self.clients[&uuid]`, which panics (`none`) when that uuid is no longer a
member.  On a passing guard the question is recorded, `OUT_NOTIF_question`
broadcast, `round_start` set to now, and a `Round` entry registered for
`round_duration` seconds under the fresh ticket. -/
def handleProvideQuestion (fresh : Uuid) (now : Nat) (requester : ActorID)
    (corr : Uuid) (question_info : QuestionInfo) (question_svg : String)
    (st : RoomActor) : Option (RoomActor × List RoomEvent) :=
  let pending' := (trackerTake st.pending corr).2
  match (trackerTake st.pending corr).1 with
  | some meta =>
    match meta.kind with
    | RoomPending.question uuid =>
      match mapLookup st.clients uuid with
      | none => none
      | some c =>
        if requester == c.session then
          some ({ st with
            pending := trackerAdd pending' fresh RoomPending.round now st.game_settings.round_duration,
            current_question := some question_info, current_answers := [],
            round_start := some now, round_ticket := some fresh },
            [RoomEvent.questionBroadcast question_svg])
        else some ({ st with pending := pending' }, [])
    | RoomPending.round => some ({ st with pending := pending' }, [])
  | none => some ({ st with pending := pending' }, [])

/-- The `Message<Timeout>` handler of `RoomActor` (`src/room_actor.rs`):
`take` the id; an absent entry is a no-op, a `Question` entry is only warned
about, a `Round` entry clears the ticket and finishes the round. -/
def handleTimeout (fresh : Uuid) (now : Nat) (id : Uuid) (st : RoomActor) :
    RoomActor × List RoomEvent :=
  let pending' := (trackerTake st.pending id).2
  match (trackerTake st.pending id).1 with
  | none => ({ st with pending := pending' }, [])
  | some meta =>
    match meta.kind with
    | RoomPending.question _ => ({ st with pending := pending' }, [])
    | RoomPending.round =>
      finish_round fresh now { st with pending := pending', round_ticket := none }

/-- Number of admins among the room's members. -/
def adminCount (clients : List (Uuid × RoomClient)) : Nat :=
  (clients.filter (fun p => p.2.room_info.is_admin)).length

/-- Invariant 4 of the specification:
`isGameRunning` implies `roundsPlayed < rounds_count`. -/
def invariantRounds (st : RoomActor) : Prop :=
  st.is_game_running = true → st.rounds_played < st.game_settings.rounds_count

-- #endregion

-- #region theorems

/-- C10: the claim says `verify_signature` is total — every string triple
yields `Ok` or `Err` and never a crash, in particular a valid-base64 key of a
length other than 32 bytes.  The code contradicts this: evaluating
`verify_signature` at `shortKeyB64` (valid base64 decoding to 31 bytes) hits
`public_key_bytes.try_into().unwrap()` in `src/tools.rs` line 10 and panics,
for every behaviour of the external ed25519 primitives and every message and
signature string. -/
theorem c10_short_key_panics (keyFromBytes : List Nat → Except String Unit)
    (edVerify : List Nat → String → List Nat → Bool) (message signature : String) :
    verify_signature keyFromBytes edVerify message signature shortKeyB64
      = RustResult.panics := by
  unfold verify_signature
  rw [show base64Decode shortKeyB64 = Except.ok (List.replicate 31 0) from rfl]
  rfl

/-- The room state reached from an empty room after three members join
(first member 1, session 10, becomes admin; then members 2 and 3 land at the
front of the member map's iteration order) and then member 3's session dies. -/
def c1Room : RoomActor :=
  (on_link_died 30
    ((addClient 0 3 30 none
      ((addClient 0 2 20 none
        ((addClient 0 1 10 none (RoomActor.on_start "room")).1)).1)).1)).1

/-- C1: the claim says every reachable room has exactly one admin iff
nonempty, in particular after any single disconnect for every iteration order
of the member map.  The code contradicts this: `on_link_died` in
`src/room_actor.rs` promotes the *first* member of the iteration order
whenever that member is not an admin, without checking whether an admin
remains.  After member 3 (not the admin) disconnects from
`[3 ↦ not-admin, 2 ↦ not-admin, 1 ↦ admin]`, member 2 is promoted while
member 1 keeps the admin flag: the nonempty room has two admins. -/
theorem c1_two_admins : c1Room.clients ≠ [] ∧ adminCount c1Room.clients = 2 := by
  decide

/-- A room in `AwaitingQuestion` whose pending `Question` entry names admin
uuid 7, which is no longer in the member map. -/
def c5Room : RoomActor :=
  { RoomActor.on_start "room" with
    clients := [(1, ⟨10, ⟨true⟩⟩)],
    is_game_running := true,
    pending := [(9, ⟨RoomPending.question 7, 0, 5⟩)] }

/-- C5: the claim says handling `IN_RESP_question` never crashes the room,
in particular when the admin uuid recorded in the matching pending entry has
left the member map.  The code contradicts this: the match guard in
`src/room_actor.rs` line 536 indexes `self.clients[&uuid]`, which panics when
the uuid is absent — here the handler run at the matching correlation id 9
panics (`none`) instead of logging and ignoring. -/
theorem c5_departed_admin_panics :
    handleProvideQuestion 50 3 10 9 QuestionInfo.default "svg" c5Room = none := by
  rfl

/-- C8 (confirmed): cancelling a ticket previously added to the pending
tracker and then delivering its `Timeout(id)` message changes nothing: the
timeout handler's `take` finds no entry and every room field — the tracker's
table included — is exactly as before the delivery, and no event is emitted. -/
theorem c8_cancel_then_timeout_noop (st : RoomActor) (id : Uuid)
    (kind : RoomPending) (now dur fresh now2 : Nat) :
    handleTimeout fresh now2 id
        { st with pending := (trackerCancel (trackerAdd st.pending id kind now dur) id).2 }
      = ({ st with pending := (trackerCancel (trackerAdd st.pending id kind now dur) id).2 },
         []) := by
  have h : mapLookup ((trackerCancel (trackerAdd st.pending id kind now dur) id).2) id
      = none := by
    simpa [trackerCancel] using mapLookup_remove (trackerAdd st.pending id kind now dur) id
  simp [handleTimeout, trackerTake, h, mapRemove_eq_self _ _ h]

/-- A room in `AwaitingQuestion`: the pending `Question` entry under
correlation id 9 names the admin (member 1, session 10); member 2 has
session 20. -/
def c4Room : RoomActor :=
  { RoomActor.on_start "room" with
    clients := [(1, ⟨10, ⟨true⟩⟩), (2, ⟨20, ⟨false⟩⟩)],
    is_game_running := true,
    pending := [(9, ⟨RoomPending.question 1, 0, 5⟩)] }

/-- C4, counterexample: the claim says a mismatched `IN_RESP_question` —
here one whose correlation id has a pending entry but whose sender (session
20) is not the recorded admin (session 10) — leaves the pending tracker's
table unchanged.  It does not: `pending.take` in `src/room_actor.rs` line 532
removes the entry before the sender check, so the table goes from one entry
to empty. -/
theorem c4_mismatch_consumes_entry :
    handleProvideQuestion 50 3 20 9 QuestionInfo.default "svg" c4Room
        = some ({ c4Room with pending := [] }, [])
      ∧ c4Room.pending ≠ ({ c4Room with pending := [] } : RoomActor).pending := by
  exact ⟨rfl, by decide⟩

/-- C4, amended: a late `IN_RESP_question` whose correlation id has *no*
pending entry leaves the whole room state unchanged; a message whose id has
an entry but whose sender is not the recorded admin — or whose entry is of
`Round` kind — leaves every room field unchanged *except* that the pending
entry is consumed (removed) by `take`; in all three cases the message is
dropped with no reply or broadcast. -/
theorem c4_amended (fresh : Uuid) (now : Nat) (requester : ActorID) (corr : Uuid)
    (question_info : QuestionInfo) (question_svg : String) (st : RoomActor) :
    (mapLookup st.pending corr = none →
      handleProvideQuestion fresh now requester corr question_info question_svg st
        = some (st, []))
    ∧ (∀ meta uuid c, mapLookup st.pending corr = some meta →
        meta.kind = RoomPending.question uuid →
        mapLookup st.clients uuid = some c → requester ≠ c.session →
        handleProvideQuestion fresh now requester corr question_info question_svg st
          = some ({ st with pending := mapRemove st.pending corr }, []))
    ∧ (∀ meta, mapLookup st.pending corr = some meta →
        meta.kind = RoomPending.round →
        handleProvideQuestion fresh now requester corr question_info question_svg st
          = some ({ st with pending := mapRemove st.pending corr }, [])) := by
  refine ⟨fun h => ?_, fun meta uuid c hm hk hc hne => ?_, fun meta hm hk => ?_⟩
  · simp [handleProvideQuestion, trackerTake, h, mapRemove_eq_self _ _ h]
  · simp only [handleProvideQuestion, trackerTake, hm, hk, hc]
    simp only [beq_iff_eq, if_neg hne]
  · simp [handleProvideQuestion, trackerTake, hm, hk]

/-- Witness for C4's amended theorem: a concrete room with an empty tracker
drops an unsolicited `IN_RESP_question` without any state change. -/
theorem c4_amended_witness :
    handleProvideQuestion 50 3 20 9 QuestionInfo.default "svg" (RoomActor.on_start "room")
      = some (RoomActor.on_start "room", []) :=
  (c4_amended 50 3 20 9 QuestionInfo.default "svg" (RoomActor.on_start "room")).1 rfl

/-- A room with a single member (the admin, member 1 with session 10) and no
running game. -/
def c6Room : RoomActor :=
  { RoomActor.on_start "room" with clients := [(1, ⟨10, ⟨true⟩⟩)] }

/-- Client-supplied settings with `roundsCount = 0`. -/
def c6Settings : GameSettings :=
  { GameSettings.default with rounds_count := 0, round_duration := 30 }

/-- C6, counterexample: the claim says `isGameRunning ⇒ roundsPlayed <
rounds_count` holds immediately after an admin's StartGame is accepted with
*any* settings, including `roundsCount = 0`.  It does not: the handler in
`src/room_actor.rs` performs no validation, so the admin's StartGame with
`rounds_count = 0` is accepted, leaving `is_game_running = true` and
`rounds_played = 0` with `¬ (0 < 0)`. -/
theorem c6_rounds_zero_breaks_invariant :
    (handleStartGame 99 5 10 77 c6Settings c6Room).1.is_game_running = true
    ∧ ¬ ((handleStartGame 99 5 10 77 c6Settings c6Room).1.rounds_played
          < (handleStartGame 99 5 10 77 c6Settings c6Room).1.game_settings.rounds_count) := by
  decide

/-- C6, amended: `isGameRunning ⇒ roundsPlayed < rounds_count` holds
immediately after an admin's accepted StartGame whenever the client-supplied
`roundsCount` is at least 1 (with `roundsCount = 0` the accepted StartGame
violates it), and the invariant is preserved by every finish-round step. -/
theorem c6_amended :
    (∀ (fresh : Uuid) (now : Nat) (requester : ActorID) (corr : Uuid)
       (gs : GameSettings) (st : RoomActor) (uuid : Uuid) (info : RoomClientInfo)
       (sess : ActorID),
       find_client st requester = some (uuid, info, sess) →
       info.is_admin = true → st.is_game_running = false → 1 ≤ gs.rounds_count →
       invariantRounds (handleStartGame fresh now requester corr gs st).1)
    ∧ (∀ (fresh : Uuid) (now : Nat) (st : RoomActor),
       invariantRounds st → invariantRounds (finish_round fresh now st).1) := by
  constructor
  · intro fresh now requester corr gs st uuid info sess hfind hadmin hrun hcount
    unfold handleStartGame
    rw [hfind]
    simp only [hadmin, hrun, if_true, if_false, Bool.false_eq_true, ite_false, ite_true]
    unfold request_question
    cases hq : (({ st with
        current_question := none, current_answers := [],
        round_ticket := none, game_settings := gs,
        is_game_running := true, rounds_played := 0 } : RoomActor).clients.find?
          (fun p => p.2.room_info.is_admin)) with
    | none => intro hcontra; simp at hcontra
    | some p =>
      cases p with
      | mk a b =>
        intro _
        simpa using hcount
  · intro fresh now st hinv
    unfold finish_round
    by_cases hrun : st.is_game_running
    · simp only [hrun, if_true, ite_true]
      by_cases hge : st.rounds_played + 1 ≥ st.game_settings.rounds_count
      · simp only [hge, if_true, ite_true]
        intro hcontra
        simp at hcontra
      · simp only [hge, if_false, ite_false]
        unfold request_question
        cases hq : (({ st with
            current_question := none, current_answers := [],
            round_ticket := none, round_start := none,
            rounds_played := st.rounds_played + 1 } : RoomActor).clients.find?
              (fun p => p.2.room_info.is_admin)) with
        | none => intro hcontra; simp at hcontra
        | some p =>
          cases p with
          | mk a b =>
            intro _
            simpa using Nat.lt_of_not_le (fun hle => hge hle)
    · simp only [hrun, if_false, ite_false]
      simpa using hinv

/-- Witness for C6's amended theorem: a concrete accepted StartGame with
`roundsCount = 2` establishes the invariant, and a finish-round step from the
freshly started room preserves it. -/
theorem c6_amended_witness :
    invariantRounds (handleStartGame 99 5 10 77
        { GameSettings.default with rounds_count := 2 } c6Room).1
    ∧ invariantRounds (finish_round 98 6 (RoomActor.on_start "w")).1 := by
  constructor
  · exact c6_amended.1 99 5 10 77 _ c6Room 1 ⟨true⟩ 10 rfl rfl rfl (by decide)
  · exact c6_amended.2 98 6 (RoomActor.on_start "w")
      (fun hcontra => absurd hcontra (by decide))

/-- A session with transport connected, a stored public key and challenge,
and a verification already completed successfully. -/
def c2Session : SessionClientActor := ⟨true, some "key", some 5, true, true, false⟩

/-- C2, counterexample: the claim says the verified flag never transitions
from true back to false within a session.  It does: from `c2Session`
(`signature_verified = true`, challenge and key still stored — the handshake
never clears them) a later `IN_REQ_verifysignature` whose signature the
verifier rejects makes the handler assign `self.signature_verified = is_ok`
(`src/session_client_actor.rs` line 142), flipping the flag back to false. -/
theorem c2_verified_flips_back :
    sessionHandle 1 42 (fun _ _ _ => RustResult.ok false) c2Session
        (TransportMsg.InReqVerifySignature ⟨9, ⟨"bad"⟩⟩)
      = some ({ c2Session with signature_verified := false },
          [SessionEffect.send (ToTransport.transportMsg
            (TransportMsg.OutRespStatus ⟨9, ⟨"error"⟩⟩))])
    ∧ c2Session.signature_verified = true
    ∧ ({ c2Session with signature_verified := false } : SessionClientActor).signature_verified
        = false :=
  ⟨rfl, rfl, rfl⟩

/-- The amended specification of the verified flag: the value
`signature_verified` holds after one handler run — the verifier's boolean
outcome (false on a verifier error) when the message is an
`IN_REQ_verifysignature` arriving with a stored challenge and key, and the
previous value otherwise. -/
def latestVerificationResult (vf : String → String → String → RustResult String Bool)
    (st : SessionClientActor) (msg : TransportMsg) : Bool :=
  match msg with
  | TransportMsg.InReqVerifySignature env =>
    match st.sign_challenge, st.pub_key with
    | some ch, some key =>
      (match vf (toString ch) env.payload.signature key with
       | RustResult.ok b => b
       | _ => false)
    | _, _ => st.signature_verified
  | _ => st.signature_verified

/-- C2, amended: within a session, `signature_verified` always equals the
boolean outcome of the most recent completed verification (false when the
verifier returned an error): an `IN_REQ_verifysignature` handled with a
stored challenge and key overwrites the flag with that outcome — so it can
transition from true back to false — and every other message (and every
verify request lacking a stored challenge or key) leaves the flag unchanged. -/
theorem c2_amended (selfId : ActorID) (fresh : Uuid)
    (vf : String → String → String → RustResult String Bool)
    (st st' : SessionClientActor) (eff : List SessionEffect) (msg : TransportMsg)
    (h : sessionHandle selfId fresh vf st msg = some (st', eff)) :
    st'.signature_verified = latestVerificationResult vf st msg := by
  cases msg
  case InReqVerifySignature env =>
    cases hch : st.sign_challenge with
    | none =>
      simp only [sessionHandle, current_challenge_str, hch, Option.map_none',
        Option.some.injEq, Prod.mk.injEq] at h
      obtain ⟨h1, -⟩ := h
      subst h1
      simp [latestVerificationResult, hch]
    | some ch =>
      cases hpk : st.pub_key with
      | none =>
        simp only [sessionHandle, current_challenge_str, hch, Option.map_some', hpk,
          Option.some.injEq, Prod.mk.injEq] at h
        obtain ⟨h1, -⟩ := h
        subst h1
        simp [latestVerificationResult, hch, hpk]
      | some key =>
        cases hvf : vf (toString ch) env.payload.signature key with
        | panics =>
          simp only [sessionHandle, current_challenge_str, hch, Option.map_some',
            hpk, hvf] at h
          exact Option.noConfusion h
        | ok b =>
          simp only [sessionHandle, current_challenge_str, hch, Option.map_some',
            hpk, hvf, Option.some.injEq, Prod.mk.injEq] at h
          obtain ⟨h1, -⟩ := h
          subst h1
          simp [latestVerificationResult, hch, hpk, hvf]
        | err e =>
          simp only [sessionHandle, current_challenge_str, hch, Option.map_some',
            hpk, hvf, Option.some.injEq, Prod.mk.injEq] at h
          obtain ⟨h1, -⟩ := h
          subst h1
          simp [latestVerificationResult, hch, hpk, hvf]
  all_goals
    simp only [sessionHandle] at h
  all_goals
    repeat' split at h
  all_goals
    simp only [Option.some.injEq, Prod.mk.injEq] at h
  all_goals
    obtain ⟨h1, -⟩ := h
  all_goals
    subst h1
  all_goals
    simp [latestVerificationResult]

/-- Witness for C2's amended theorem: a session that lacks a room replies
"no room" to a client-list request and keeps its verified flag. -/
theorem c2_amended_witness :
    (⟨true, none, none, false, false, false⟩ : SessionClientActor).signature_verified = false :=
  c2_amended 1 2 (fun _ _ _ => RustResult.ok true)
    ⟨true, none, none, false, false, false⟩
    ⟨true, none, none, false, false, false⟩
    [SessionEffect.send (ToTransport.transportMsg
      (TransportMsg.OutRespStatus ⟨7, ⟨"no room"⟩⟩))]
    (TransportMsg.InReqClientList ⟨7, ⟨⟩⟩) rfl

/-- C3, counterexample: the claim says every `IN_REQ_verifysignature`
handled with a stored challenge and key draws exactly one `OUT_RESP_status`
reply, with no other reply in the error case.  When the verifier returns an
error the handler in `src/session_client_actor.rs` sends "error" once inside
the `Err` match arm (line 137) and then falls through to the common reply
(line 145), sending a second "error" with the same correlation id: two
status replies, not one. -/
theorem c3_error_sends_two_replies :
    sessionHandle 1 2 (fun _ _ _ => RustResult.err "invalid key")
        (⟨true, some "key", some 5, true, true, false⟩ : SessionClientActor)
        (TransportMsg.InReqVerifySignature ⟨9, ⟨"sig"⟩⟩)
      = some (⟨true, some "key", some 5, false, true, false⟩,
          [SessionEffect.send (ToTransport.transportMsg
            (TransportMsg.OutRespStatus ⟨9, ⟨"error"⟩⟩)),
           SessionEffect.send (ToTransport.transportMsg
            (TransportMsg.OutRespStatus ⟨9, ⟨"error"⟩⟩))])
    ∧ [SessionEffect.send (ToTransport.transportMsg
        (TransportMsg.OutRespStatus ⟨9, ⟨"error"⟩⟩)),
       SessionEffect.send (ToTransport.transportMsg
        (TransportMsg.OutRespStatus ⟨9, ⟨"error"⟩⟩))].length ≠ 1 :=
  ⟨rfl, by decide⟩

/-- C3, amended: an `IN_REQ_verifysignature` handled with a stored challenge
and key (and a connected transport) yields exactly one `OUT_RESP_status`
reply echoing the request's correlation id when the verifier returns a
boolean — "success" for true, "error" for false — with `verified` set to that
boolean; when the verifier returns an error, `verified` is set to false and
*two* "error" status replies (both with the request's correlation id) are
sent; a verifier panic propagates. -/
theorem c3_amended (selfId : ActorID) (fresh : Uuid)
    (vf : String → String → String → RustResult String Bool)
    (st : SessionClientActor) (corr : Uuid) (sig : String) (ch : Uuid) (key : String)
    (hch : st.sign_challenge = some ch) (hpk : st.pub_key = some key)
    (htr : st.transport = true) :
    sessionHandle selfId fresh vf st (TransportMsg.InReqVerifySignature ⟨corr, ⟨sig⟩⟩)
      = match vf (toString ch) sig key with
        | RustResult.ok true => some ({ st with signature_verified := true },
            [SessionEffect.send (ToTransport.transportMsg
              (TransportMsg.OutRespStatus ⟨corr, ⟨"success"⟩⟩))])
        | RustResult.ok false => some ({ st with signature_verified := false },
            [SessionEffect.send (ToTransport.transportMsg
              (TransportMsg.OutRespStatus ⟨corr, ⟨"error"⟩⟩))])
        | RustResult.err _ => some ({ st with signature_verified := false },
            [SessionEffect.send (ToTransport.transportMsg
              (TransportMsg.OutRespStatus ⟨corr, ⟨"error"⟩⟩)),
             SessionEffect.send (ToTransport.transportMsg
              (TransportMsg.OutRespStatus ⟨corr, ⟨"error"⟩⟩))])
        | RustResult.panics => none := by
  cases hvf : vf (toString ch) sig key with
  | panics =>
    simp [sessionHandle, current_challenge_str, hch, hpk, hvf]
  | ok b =>
    cases b <;>
      simp [sessionHandle, current_challenge_str, hch, hpk, hvf, send_status, sendEff, htr]
  | err e =>
    simp [sessionHandle, current_challenge_str, hch, hpk, hvf, send_status, sendEff, htr]

/-- Witness for C3's amended theorem: a successful verification from a
concrete session state yields the single "success" reply. -/
theorem c3_amended_witness :
    sessionHandle 1 2 (fun _ _ _ => RustResult.ok true)
        (⟨true, some "key", some 5, false, true, false⟩ : SessionClientActor)
        (TransportMsg.InReqVerifySignature ⟨9, ⟨"sig"⟩⟩)
      = some (⟨true, some "key", some 5, true, true, false⟩,
          [SessionEffect.send (ToTransport.transportMsg
            (TransportMsg.OutRespStatus ⟨9, ⟨"success"⟩⟩))]) :=
  c3_amended 1 2 (fun _ _ _ => RustResult.ok true)
    ⟨true, some "key", some 5, false, true, false⟩ 9 "sig" 5 "key" rfl rfl rfl

/-- C7 (confirmed): for every `IN_REQ_sendPublicKey` received while
`verified` is true (on a session with a connected transport), the handler
sends `OUT_RESP_status "signature already verified"` *and* the normal
`OUT_RESP_signMessage` reply carrying the freshly generated challenge, both
echoing the request's correlation id; the stored public key and challenge
are overwritten with the new values — and that overwrite
(`pub_key := key, sign_challenge := fresh`) is exactly what every
not-yet-verified session gets too. -/
theorem c7_already_verified_still_overwrites (selfId : ActorID) (fresh : Uuid)
    (vf : String → String → String → RustResult String Bool)
    (st : SessionClientActor) (corr : Uuid) (key : String)
    (hver : st.signature_verified = true) (htr : st.transport = true) :
    sessionHandle selfId fresh vf st (TransportMsg.InReqSendPublicKey ⟨corr, ⟨key⟩⟩)
      = some ({ st with pub_key := some key, sign_challenge := some fresh },
          [SessionEffect.send (ToTransport.transportMsg
            (TransportMsg.OutRespStatus ⟨corr, ⟨"signature already verified"⟩⟩)),
           SessionEffect.send (ToTransport.transportMsg
            (TransportMsg.OutRespSignMessage ⟨corr, ⟨toString fresh⟩⟩))])
    ∧ (∀ st2 : SessionClientActor,
        (sessionHandle selfId fresh vf st2 (TransportMsg.InReqSendPublicKey ⟨corr, ⟨key⟩⟩)).map
            (fun r => (r.1.pub_key, r.1.sign_challenge))
          = some (some key, some fresh)) := by
  constructor
  · simp [sessionHandle, hver, send_status, sendEff, htr]
  · intro st2
    simp [sessionHandle]

/-- Witness for C7: a concrete verified session re-sending its key gets both
replies and the overwrite. -/
theorem c7_already_verified_still_overwrites_witness :
    sessionHandle 1 5 (fun _ _ _ => RustResult.ok true)
        (⟨true, some "old", some 3, true, true, false⟩ : SessionClientActor)
        (TransportMsg.InReqSendPublicKey ⟨9, ⟨"newKey"⟩⟩)
      = some (⟨true, some "newKey", some 5, true, true, false⟩,
          [SessionEffect.send (ToTransport.transportMsg
            (TransportMsg.OutRespStatus ⟨9, ⟨"signature already verified"⟩⟩)),
           SessionEffect.send (ToTransport.transportMsg
            (TransportMsg.OutRespSignMessage ⟨9, ⟨toString (5 : Nat)⟩⟩))]) :=
  (c7_already_verified_still_overwrites 1 5 (fun _ _ _ => RustResult.ok true)
    ⟨true, some "old", some 3, true, true, false⟩ 9 "newKey" rfl rfl).1

-- #endregion

end Kanjilab
